import Mathlib

/-!
Verification of the Nachtalb/znc-modules repository (three ZNC plugin
modules: telegram_first_pm.py, telegram_mentions.py, weather.py) against
its natural-language specification.  The Python code is shallowly embedded:
each handler becomes a pure Lean function from its inputs and explicit
state to its new state together with the list of observable outputs
(console messages, chat replies, outbound HTTP requests); code that can
raise a Python exception returns a PyResult.
-/

namespace ZncModules

/-- Result of running a piece of Python code: either a value or a raised
exception (carrying the exception description). -/
inductive PyResult (α : Type) where
  | ok (a : α)
  | exn (e : String)
deriving DecidableEq, Repr

/-- Python truthiness of an optional string (None and the empty string are
falsy, every other string is truthy). -/
def truthy : Option String → Bool
  | none => false
  | some s => !(s == "")

/-- Python substring containment: the expression b in a for strings,
true iff the needle occurs contiguously in the haystack. -/
def pyInB (needle hay : String) : Bool :=
  hay.data.tails.any (fun t => needle.data.isPrefixOf t)

/-- Splitting a character list at every character satisfying the
predicate, keeping empty pieces, accumulator style. -/
def splitPredAux (p : Char → Bool) : List Char → List Char → List (List Char)
  | [], acc => [acc.reverse]
  | c :: cs, acc =>
    if p c then acc.reverse :: splitPredAux p cs [] else splitPredAux p cs (c :: acc)

/-- Python str.split(sep) for a one-character separator: split at every
occurrence, keeping empty pieces. -/
def pySplitChar (s : String) (sep : Char) : List String :=
  (splitPredAux (fun c => c == sep) s.data []).map String.mk

/-- Python containment of a single character in a string. -/
def pyHasChar (s : String) (c : Char) : Bool :=
  s.data.contains c

/-- Python str.lower() (ASCII case folding, which covers every string
these modules handle). -/
def pyLower (s : String) : String :=
  String.mk (s.data.map Char.toLower)

/-- Python str.strip() with no argument: remove leading and trailing
whitespace. -/
def pyStrip (s : String) : String :=
  String.mk (((s.data.dropWhile Char.isWhitespace).reverse.dropWhile
    Char.isWhitespace).reverse)

/-- Python str.split() with no separator: split on whitespace runs,
dropping empty tokens. -/
def pySplitWS (s : String) : List String :=
  ((splitPredAux Char.isWhitespace s.data []).map String.mk).filter (fun t => !(t == ""))

/-- An observable output of a handler. -/
inductive Out where
  | console (text : String)
  | chat (target : String) (text : String) (action : Bool)
  | httpGet (url : String)
  | httpPost (url : String) (data : List (String × String))
deriving DecidableEq, Repr

/-! ## urllib.parse.quote

urllib.parse.quote percent-encodes every byte of the UTF-8 encoding of the
string except ASCII alphanumerics and the characters underscore, dot,
hyphen, tilde and (by the default safe argument) slash. -/

/-- UTF-8 encoding of a single character, as a list of byte values. -/
def utf8Bytes (c : Char) : List Nat :=
  let v := c.toNat
  if v < 128 then [v]
  else if v < 2048 then [192 + v / 64, 128 + v % 64]
  else if v < 65536 then [224 + v / 4096, 128 + (v / 64) % 64, 128 + v % 64]
  else [240 + v / 262144, 128 + (v / 4096) % 64, 128 + (v / 64) % 64, 128 + v % 64]

/-- Bytes urllib.parse.quote leaves unescaped with the default safe
argument: ASCII alphanumerics, underscore, dot, hyphen, tilde, slash. -/
def isSafeByte (b : Nat) : Bool :=
  (48 ≤ b && b ≤ 57) || (65 ≤ b && b ≤ 90) || (97 ≤ b && b ≤ 122) ||
    b == 95 || b == 46 || b == 45 || b == 126 || b == 47

/-- Upper-case hexadecimal digit. -/
def hexDig (n : Nat) : Char :=
  if n < 10 then Char.ofNat (48 + n) else Char.ofNat (55 + n)

/-- Encoding of one byte under urllib.parse.quote. -/
def byteEnc (b : Nat) : String :=
  if isSafeByte b then String.mk [Char.ofNat b]
  else String.mk ['%', hexDig (b / 16), hexDig (b % 16)]

/-- Concatenated encodings of a byte sequence. -/
def pyQuoteBytes : List Nat → String
  | [] => ""
  | b :: bs => byteEnc b ++ pyQuoteBytes bs

/-- urllib.parse.quote with the default safe argument. -/
def pyQuote (s : String) : String :=
  pyQuoteBytes (s.data.flatMap utf8Bytes)

theorem utf8Bytes_ne_nil (c : Char) : utf8Bytes c ≠ [] := by
  unfold utf8Bytes
  dsimp only
  split
  · simp
  · split
    · simp
    · split <;> simp

theorem byteEnc_length_pos (b : Nat) : 0 < (byteEnc b).length := by
  unfold byteEnc
  split
  · simp [String.singleton, String.length]
  · simp [String.length]

theorem pyQuoteBytes_length (bs : List Nat) :
    (pyQuoteBytes bs).length = (bs.map (fun b => (byteEnc b).length)).sum := by
  induction bs with
  | nil => rfl
  | cons b bs ih => simp [pyQuoteBytes, String.length_append, ih]

theorem pyQuote_ne_empty {s : String} (h : s ≠ "") : pyQuote s ≠ "" := by
  intro hq
  apply h
  have hlen : (pyQuote s).length = 0 := by rw [hq]; rfl
  rw [pyQuote, pyQuoteBytes_length] at hlen
  cases hd : s.data with
  | nil => exact String.ext (by simp [hd])
  | cons c cs =>
    exfalso
    rw [hd] at hlen
    cases hb : utf8Bytes c with
    | nil => exact utf8Bytes_ne_nil c hb
    | cons b bs =>
      simp [hb, List.map_append] at hlen
      have := byteEnc_length_pos b
      omega

/-! ## Argument parser shared by the two Telegram modules

Source line (both modules):
args_dict = dict(arg.split("=") for arg in args.split(";") if "=" in arg)
Segments without an equals sign are skipped by the genexp filter; a
segment with two or more equals signs makes the dict constructor raise a
ValueError (the split yields more than two parts); a duplicate key keeps
the value of its last occurrence (dict construction semantics). -/

/-- One semicolon-delimited segment, split at equals signs and consumed by
the dict constructor: exactly two parts give a key/value pair, any other
arity raises ValueError. -/
def segToPair (a : String) : PyResult (String × String) :=
  match pySplitChar a '=' with
  | [k, v] => .ok (k, v)
  | _ => .exn "ValueError: dictionary update sequence element has wrong length"

/-- Sequential consumption of the kept segments by the dict constructor;
the first offending segment raises. -/
def parseSegs : List String → PyResult (List (String × String))
  | [] => .ok []
  | a :: rest =>
    match segToPair a with
    | .exn e => .exn e
    | .ok p =>
      match parseSegs rest with
      | .exn e => .exn e
      | .ok ps => .ok (p :: ps)

/-- The whole argument parse: split on semicolons, keep segments
containing an equals sign, build the key/value pair list. -/
def parseArgs (args : String) : PyResult (List (String × String)) :=
  parseSegs ((pySplitChar args ';').filter (fun a => pyHasChar a '='))

/-- Python dict lookup with default None over the pair list: the last
occurrence of a key wins. -/
def dictGet (d : List (String × String)) (k : String) : Option String :=
  (d.reverse.find? (fun p => p.1 == k)).map (fun p => p.2)

/-! ## telegram_first_pm.py -/

/-- The message template of telegram_first_pm, applied:
TEMPLATE = "\x7bsender\x7d @ \x7bnetwork_name\x7d: \x7bmessage\x7d". -/
def fpmTemplate (sender network_name message : String) : String :=
  sender ++ " @ " ++ network_name ++ ": " ++ message

/-- Configuration fields of a telegram_first_pm module instance, as set by
OnLoad from the parsed argument dict. -/
structure FPMConfig where
  bot_token : Option String
  chat_id : Option String
  thread_message_id : Option String
deriving DecidableEq, Repr

/-- Error text emitted by _check_args of both Telegram modules. -/
def checkArgsError : String :=
  "Error: bot_token and chat_id not set. Please load the module with the correct arguments."

/-- telegram_first_pm._check_args: both bot_token and chat_id must be
truthy (neither None nor empty). -/
def fpmCheckArgs (c : FPMConfig) : Bool :=
  truthy c.bot_token && truthy c.chat_id

/-- telegram_first_pm.OnLoad: parse the argument string (which can raise
ValueError on a segment with two or more equals signs), bind the three
config fields, then validate.  Returns the config together with the
boolean load result. -/
def fpmOnLoad (args : String) : PyResult (FPMConfig × Bool × List Out) :=
  match parseArgs args with
  | .exn e => .exn e
  | .ok d =>
    let c : FPMConfig :=
      ⟨dictGet d "bot_token", dictGet d "chat_id", dictGet d "thread_message_id"⟩
    if fpmCheckArgs c then .ok (c, true, []) else .ok (c, false, [Out.console checkArgsError])

/-- The class attribute telegram_first_pm._seen_users at class creation:
an empty set, shared by every instance of the class in the process. -/
def fpmInitialSeen : List String := []

/-- telegram_first_pm.send_telegram_message: format the text, POST it to
the Telegram sendMessage endpoint, and catch any exception of the HTTP
call, logging it to the module console.  httpErr is the outcome of the
call supplied by the environment (none means success). -/
def send_telegram_message (c : FPMConfig) (network_name sender message : String)
    (httpErr : Option String) : List Out :=
  let text := fpmTemplate sender network_name message
  let url := "https://api.telegram.org/bot" ++ c.bot_token.getD "" ++ "/sendMessage"
  let data := [("chat_id", c.chat_id.getD ""), ("text", text)] ++
    (if truthy c.thread_message_id then [("thread_message_id", c.thread_message_id.getD "")] else [])
  Out.httpPost url data ::
    (match httpErr with
     | none => []
     | some e => [Out.console ("Error sending Telegram message: " ++ e)])

/-- Result of one telegram_first_pm.OnPrivMsg invocation: the new shared
seen set, the number of notification attempts made, and the outputs. -/
structure FPMRes where
  seen : List String
  attempts : Nat
  outs : List Out
deriving DecidableEq, Repr

/-- telegram_first_pm.OnPrivMsg: validate config, skip senders already in
the shared seen set, otherwise add the sender to the set and attempt one
Telegram notification (whose failure is caught inside
send_telegram_message). -/
def fpmOnPrivMsg (c : FPMConfig) (network_name : String) (seen : List String)
    (sender message : String) (httpErr : Option String) : FPMRes :=
  if !fpmCheckArgs c then ⟨seen, 0, [Out.console checkArgsError]⟩
  else if sender ∈ seen then ⟨seen, 0, []⟩
  else ⟨sender :: seen, 1, send_telegram_message c network_name sender message httpErr⟩

/-- One private-message event delivered to the module: the sender, the
message text, and the environment-chosen outcome of the notification HTTP
call (none means success). -/
structure FPMEvent where
  sender : String
  message : String
  httpErr : Option String
deriving DecidableEq, Repr

/-- The attempt counts of the events whose sender is S, in order, along a
run of OnPrivMsg invocations threading the shared seen set. -/
def fpmAttemptsFor (c : FPMConfig) (network_name S : String) :
    List String → List FPMEvent → List Nat
  | _, [] => []
  | seen, e :: evs =>
    let r := fpmOnPrivMsg c network_name seen e.sender e.message e.httpErr
    if e.sender = S then r.attempts :: fpmAttemptsFor c network_name S r.seen evs
    else fpmAttemptsFor c network_name S r.seen evs

/-! ## telegram_mentions.py -/

/-- Configuration constant CHANNEL_TEMPLATE of telegram_mentions (empty
would disable channel mentions). -/
def CHANNEL_TEMPLATE : String :=
  "\x7bsender\x7d @ \x7bnetwork_name\x7d/\x7bchannel_name\x7d: \x7bmessage\x7d"

/-- Configuration constant PRIVATE_TEMPLATE of telegram_mentions (empty
would disable private mentions). -/
def PRIVATE_TEMPLATE : String :=
  "\x7bsender\x7d @ \x7bnetwork_name\x7d: \x7bmessage\x7d"

/-- Configuration constant CASE_SENSITIVE of telegram_mentions. -/
def CASE_SENSITIVE : Bool := false

/-- Configuration fields of a telegram_mentions module instance. -/
structure MentionsConfig where
  bot_token : Option String
  chat_id : Option String
  mentions : List String
  thread_message_id : Option String
deriving DecidableEq, Repr

/-- telegram_mentions._check_args. -/
def mentionsCheckArgs (c : MentionsConfig) : Bool :=
  truthy c.bot_token && truthy c.chat_id

/-- telegram_mentions.OnLoad: lower-case the argument string when matching
is case-insensitive, parse it (ValueError propagates uncaught), bind the
config fields, split the mentions value on commas dropping empty items,
default the mention list to the own nick when empty, then validate. -/
def mentionsOnLoad (ownNick : String) (args : String) :
    PyResult (MentionsConfig × Bool × List Out) :=
  let args := if !CASE_SENSITIVE then pyLower args else args
  match parseArgs args with
  | .exn e => .exn e
  | .ok d =>
    let ms := (pySplitChar ((dictGet d "mentions").getD "") ',').filter (fun m => !(m == ""))
    let c : MentionsConfig :=
      ⟨dictGet d "bot_token", dictGet d "chat_id", ms, dictGet d "thread_message_id"⟩
    let (c, outs) :=
      if c.mentions.isEmpty then
        ({ c with mentions := [ownNick] },
          [Out.console ("No mentions specified, using \x27" ++ ownNick ++ "\x27")])
      else (c, [])
    if mentionsCheckArgs c then .ok (c, true, outs)
    else .ok (c, false, outs ++ [Out.console checkArgsError])

/-- telegram_mentions.send_telegram_message: format with the channel
template when a channel is given and the private template otherwise, then
POST to the Telegram sendMessage endpoint, catching any failure. -/
def mentionsSendTelegramMessage (c : MentionsConfig) (network_name sender : String)
    (channel : Option String) (message : String) (httpErr : Option String) : List Out :=
  let text :=
    match channel with
    | some channel_name =>
        sender ++ " @ " ++ network_name ++ "/" ++ channel_name ++ ": " ++ message
    | none => sender ++ " @ " ++ network_name ++ ": " ++ message
  let url := "https://api.telegram.org/bot" ++ c.bot_token.getD "" ++ "/sendMessage"
  let data := [("chat_id", c.chat_id.getD ""), ("text", text)] ++
    (if truthy c.thread_message_id then [("thread_message_id", c.thread_message_id.getD "")] else [])
  Out.httpPost url data ::
    (match httpErr with
     | none => []
     | some e => [Out.console ("Error sending Telegram message: " ++ e)])

/-- telegram_mentions.OnChanMsg: with a non-empty channel template and a
valid config, lower-case the message text when case-insensitive and scan
the configured mention list for a substring match; the first match sends
one notification and breaks out of the loop. -/
def mentionsOnChanMsg (c : MentionsConfig) (network_name sender channel_name message : String)
    (httpErr : Option String) : List Out :=
  if CHANNEL_TEMPLATE == "" then []
  else if !mentionsCheckArgs c then [Out.console checkArgsError]
  else
    let msg_text := if CASE_SENSITIVE then message else pyLower message
    if c.mentions.any (fun mention => pyInB mention msg_text) then
      mentionsSendTelegramMessage c network_name sender (some channel_name) message httpErr
    else []

/-- telegram_mentions.OnPrivMsg as written in the source: the loop
iterates over the CHARACTERS of the lower-cased message text (for mention
in msg_text) and tests each character for membership in the original
message text, sending one notification on the first hit. -/
def mentionsOnPrivMsg (c : MentionsConfig) (network_name sender message : String)
    (httpErr : Option String) : List Out :=
  if PRIVATE_TEMPLATE == "" then []
  else if !mentionsCheckArgs c then [Out.console checkArgsError]
  else
    let msg_text := if CASE_SENSITIVE then message else pyLower message
    if msg_text.data.any (fun mention => pyInB (String.mk [mention]) message) then
      mentionsSendTelegramMessage c network_name sender none message httpErr
    else []

/-- Number of notification attempts among a list of outputs. -/
def attemptCount (outs : List Out) : Nat :=
  (outs.filter (fun o => match o with | Out.httpPost _ _ => true | _ => false)).length

/-! ## weather.py -/

/-- Configuration constant DEBUG of weather.py. -/
def DEBUG : Bool := false

/-- The per-module persisted key/value store (ZNC NV store). -/
def NVStore : Type := List (String × String)

/-- CModule.GetNV: the stored value, or the empty string when absent. -/
def getNV (st : NVStore) (k : String) : String :=
  match st.find? (fun p => p.1 == k) with
  | some p => p.2
  | none => ""

/-- CModule.SetNV: store a value, overwriting any previous one. -/
def setNV (st : NVStore) (k v : String) : NVStore :=
  (k, v) :: st.filter (fun p => !(p.1 == k))

/-- CModule.DelNV: remove a stored value. -/
def delNV (st : NVStore) (k : String) : NVStore :=
  st.filter (fun p => !(p.1 == k))

/-- CModule.HasNV. -/
def hasNV (st : NVStore) (k : String) : Bool :=
  st.any (fun p => p.1 == k)

/-- weather.Log: emits to the module console only when DEBUG is set; the
force parameter is accepted but ignored by the source. -/
def wLog (message : String) (force : Bool) : List Out :=
  if DEBUG then [Out.console message] else []

/-- weather.Put: without a target the message goes to the module console;
with a target it is delivered as a PRIVMSG (wrapped as a CTCP ACTION when
action is set), recorded here as one chat output. -/
def wPut (message : String) (target : Option String) (action : Bool) : List Out :=
  match target with
  | none => wLog ("PutModule: " ++ message) false ++ [Out.console message]
  | some t => [Out.chat t message action]

/-- weather.Action: Put with action set. -/
def wAction (message : String) (target : Option String) : List Out :=
  wPut message target true

/-- Outcome of the weather HTTP fetch, chosen by the environment: a
successfully parsed JSON body reduced to the four extracted fields, an
InvalidURL exception from the HTTP client, an HTTPError with its status
code, or any other exception (network failure, malformed JSON, missing
fields). -/
inductive HttpResult where
  | success (descr temp country name : String)
  | invalidURL
  | httpError (code : Nat)
  | otherError (e : String)
deriving DecidableEq, Repr

/-- The console text emitted by get_weather when no API key is stored. -/
def apiKeyMissingMsg : String :=
  "API key is not set. Use \x27setkey\x27 command to set it. You can get an API key from https://openweathermap.org/."

/-- The OpenWeatherMap request URL built by get_weather. -/
def weatherUrl (location api_key : String) : String :=
  "http://api.openweathermap.org/data/2.5/weather?q=" ++ location ++
    "&appid=" ++ api_key ++ "&units=metric"

/-- weather.get_weather: quote the stored API key; when it is empty,
reply that the module is not set up (to the target, if any) and report
the missing key on the console, issuing no HTTP request; otherwise quote
the location, issue the GET, and translate the outcome: success is
formatted (with the source literal Â°C), InvalidURL replies Invalid
Location., HTTP 404 replies Location not found. as an action, and
anything else replies Could not fetch weather data.  Every exception is
caught inside the function; the store is never written. -/
def get_weather (world : String → HttpResult) (st : NVStore) (location : String)
    (target : Option String) : List Out × NVStore :=
  let api_key := pyQuote (getNV st "apikey")
  if api_key == "" then
    ((match target with
      | some _ => wAction "!weather is not set up." target
      | none => []) ++ [Out.console apiKeyMissingMsg], st)
  else
    let location := pyQuote location
    let url := weatherUrl location api_key
    (wLog ("Fetching weather: url=" ++ url) false ++ [Out.httpGet url] ++
      (match world url with
       | .success descr temp country name =>
           wPut ("Weather in " ++ name ++ ", " ++ country ++ ": " ++ descr ++ ", " ++
             temp ++ "Â°C") target false
       | .invalidURL => wPut "Invalid Location." target false
       | .httpError code =>
           (if code == 404 then wAction "Location not found." target
            else wPut "Could not fetch weather data" target false) ++
             wLog "An error occurred: HTTPError" false
       | .otherError e =>
           wPut "Could not fetch weather data" target false ++
             wLog ("An error occurred: " ++ e) false), st)

/-- SetAPIKeyCmd argument extraction: the first non-empty whitespace token
after the command name, or None. -/
def setkeyArg (line : String) : Option String :=
  ((pySplitWS (pyStrip line)).drop 1).find? (fun t => !(t == ""))

/-- SetAPIKeyCmd.__call__: an absent argument deletes the stored key when
one exists (reporting removal) and otherwise reports usage; a present
argument is persisted. -/
def setkeyCmd (line : String) (st : NVStore) : NVStore × List Out :=
  match setkeyArg line with
  | none =>
    if hasNV st "apikey" then (delNV st "apikey", [Out.console "API key removed."])
    else (st, [Out.console "Usage: setkey <APIKEY>"])
  | some api_key => (setNV st "apikey" api_key, [Out.console "API key set successfully."])

/-- weather.exception_handler: the decorator wrapped around every handler
and command of weather.py; a raised exception is caught, logged through
Log (which emits nothing unless DEBUG is set, the force flag being
ignored), and turned into a None return. -/
def exception_handler {α : Type} (body : PyResult α) : Option α × List Out :=
  match body with
  | .ok a => (some a, [])
  | .exn e => (none, wLog ("An error occurred: " ++ e) true)

/-! ## Theorems -/

/-- C8: the argument string bot_token=T;chat_id=C;thread_message_id=M
parses to exactly the three-key configuration with no extraneous keys
(witnessed both by the raw pair list and by the config record OnLoad
builds from it); any semicolon-delimited segment lacking an equals sign
is skipped by the parse; and when a key occurs in several segments the
last occurrence wins under dict lookup. -/
theorem telegram_args_roundtrip :
    (parseArgs "bot_token=T;chat_id=C;thread_message_id=M" =
        .ok [("bot_token", "T"), ("chat_id", "C"), ("thread_message_id", "M")] ∧
      fpmOnLoad "bot_token=T;chat_id=C;thread_message_id=M" =
        .ok (⟨some "T", some "C", some "M"⟩, true, [])) ∧
    (∀ pre s post, pyHasChar s '=' = false →
      parseSegs ((pre ++ s :: post).filter (fun a => pyHasChar a '=')) =
        parseSegs ((pre ++ post).filter (fun a => pyHasChar a '='))) ∧
    (∀ d k v, dictGet (d ++ [(k, v)]) k = some v) := by
  refine ⟨⟨by rfl, by rfl⟩, ?_, ?_⟩
  · intro pre s post h
    simp [List.filter_append, List.filter_cons, h]
  · intro d k v
    simp [dictGet, List.find?_cons]

/-- Witness for C8: a concrete segment without an equals sign is skipped,
and a concrete duplicate key resolves to its last value. -/
theorem telegram_args_roundtrip_witness :
    parseSegs ((["a=b"] ++ "junk" :: []).filter (fun a => pyHasChar a '=')) =
      parseSegs ((["a=b"] ++ ([] : List String)).filter (fun a => pyHasChar a '=')) ∧
    dictGet ([("k", "1")] ++ [("k", "2")]) "k" = some "2" :=
  ⟨telegram_args_roundtrip.2.1 ["a=b"] "junk" [] (by decide),
    telegram_args_roundtrip.2.2 [("k", "1")] "k" "2"⟩

/-- C10: a load argument string containing a segment with two or more
equals signs makes the dict construction in OnLoad raise a ValueError that
is not caught anywhere in either Telegram module, so loading aborts with
an exception instead of skipping the segment or returning false. -/
theorem telegram_onload_valueerror :
    fpmOnLoad "bot_token=a=b;chat_id=c" =
      .exn "ValueError: dictionary update sequence element has wrong length" ∧
    mentionsOnLoad "ownnick" "bot_token=a=b;chat_id=c" =
      .exn "ValueError: dictionary update sequence element has wrong length" :=
  ⟨rfl, rfl⟩

/-- C2, divergence of the private-message path: with mention list
[hello] and the message xyz (which contains no configured mention term),
the channel handler sends nothing, but the private handler sends one
notification, because its loop iterates over the characters of the
lower-cased text (the first character x occurs in xyz) instead of over
the configured mention list. -/
theorem mentions_privmsg_char_iteration_bug :
    attemptCount (mentionsOnChanMsg ⟨some "t", some "c", ["hello"], none⟩
      "net" "bob" "#ch" "xyz" none) = 0 ∧
    attemptCount (mentionsOnPrivMsg ⟨some "t", some "c", ["hello"], none⟩
      "net" "bob" "xyz" none) = 1 :=
  ⟨rfl, rfl⟩

/-- C4, counterexample to per-instance scoping: _seen_users is a class
attribute mutated in place, so it is shared by every instance of
telegram_first_pm in the process.  Two distinct instances (different
configurations) share the set: after the first instance handles a private
message from alice, the second instance receives its own first private
message from alice and makes zero notification attempts, where the claim
demands one. -/
theorem fpm_seen_shared_counterexample :
    (⟨some "t1", some "c1", none⟩ : FPMConfig) ≠ ⟨some "t2", some "c2", none⟩ ∧
    (fpmOnPrivMsg ⟨some "t1", some "c1", none⟩ "net" fpmInitialSeen
      "alice" "hi" none).attempts = 1 ∧
    (fpmOnPrivMsg ⟨some "t2", some "c2", none⟩ "net"
      (fpmOnPrivMsg ⟨some "t1", some "c1", none⟩ "net" fpmInitialSeen
        "alice" "hi" none).seen
      "alice" "hi again" none).attempts = 0 := by
  refine ⟨by decide, rfl, rfl⟩

/-- C4 as amended: the seen-senders set is a class attribute shared by all
instances of the module in the process; it is empty when the class is
created, it grows monotonically (an invocation only ever inserts the
handled sender, never removes anything), and a sender already in the
shared set is suppressed for every instance, whichever instance first saw
it. -/
theorem fpm_seen_class_scoped_monotone (c : FPMConfig) (network_name : String)
    (seen : List String) (sender message : String) (httpErr : Option String) :
    fpmInitialSeen = [] ∧
    seen ⊆ (fpmOnPrivMsg c network_name seen sender message httpErr).seen ∧
    (∀ x ∈ (fpmOnPrivMsg c network_name seen sender message httpErr).seen,
      x ∈ seen ∨ x = sender) ∧
    (sender ∈ seen →
      (fpmOnPrivMsg c network_name seen sender message httpErr).attempts = 0) := by
  refine ⟨rfl, ?_, ?_, ?_⟩
  · unfold fpmOnPrivMsg
    split
    · exact List.Subset.refl seen
    · split
      · exact List.Subset.refl seen
      · exact List.subset_cons_self sender seen
  · unfold fpmOnPrivMsg
    split
    · exact fun x hx => Or.inl hx
    · split
      · exact fun x hx => Or.inl hx
      · intro x hx
        rcases List.mem_cons.mp hx with hx | hx
        · exact Or.inr hx
        · exact Or.inl hx
  · intro hs
    unfold fpmOnPrivMsg
    split
    · rfl
    · simp [hs]

/-- Witness for C4 as amended: a sender already in the shared set is
suppressed for an instance that never saw it. -/
theorem fpm_seen_class_scoped_monotone_witness :
    (fpmOnPrivMsg ⟨some "t2", some "c2", none⟩ "net" ["alice"]
      "alice" "hello" none).attempts = 0 :=
  (fpm_seen_class_scoped_monotone ⟨some "t2", some "c2", none⟩ "net" ["alice"]
    "alice" "hello" none).2.2.2 (by decide)

/-- C3, counterexample: not every handler boundary is wrapped in a
catch-all.  telegram_first_pm.OnLoad has no exception handling around its
argument parse, so a segment with two equals signs raises a ValueError
that escapes the handler to the host runtime. -/
theorem handler_exception_escapes_counterexample :
    fpmOnLoad "x=1=2;bot_token=t;chat_id=c" =
      .exn "ValueError: dictionary update sequence element has wrong length" :=
  rfl

/-- C3 as amended: only weather.py wraps its handler and command bodies in
a catch-all (exception_handler), which converts any raised exception into
a None return, emitting nothing because its log call is gated on the DEBUG
flag and the force argument is ignored; the Telegram modules have no such
wrapper and their OnLoad propagates a ValueError uncaught on a segment
with two or more equals signs. -/
theorem weather_catchall_telegram_unwrapped :
    (∀ e : String, @exception_handler Bool (.exn e) = (none, [])) ∧
    (∀ a : Bool, @exception_handler Bool (.ok a) = (some a, [])) ∧
    mentionsOnLoad "nick" "x=1=2;bot_token=t;chat_id=c" =
      .exn "ValueError: dictionary update sequence element has wrong length" :=
  ⟨fun _ => rfl, fun _ => rfl, rfl⟩

/-- Invariant behind C1: along any run of private-message events, the
attempt counts recorded for sender S are all zero when S is already in
the seen set, and otherwise one for the first S-event followed by zeros,
whatever the HTTP outcomes are. -/
theorem fpmAttemptsFor_general (c : FPMConfig) (h : fpmCheckArgs c = true)
    (network_name S : String) (evs : List FPMEvent) (seen : List String) :
    fpmAttemptsFor c network_name S seen evs =
      if S ∈ seen then List.replicate (evs.filter (fun e => e.sender == S)).length 0
      else
        match (evs.filter (fun e => e.sender == S)).length with
        | 0 => []
        | Nat.succ n => 1 :: List.replicate n 0 := by
  induction evs generalizing seen with
  | nil =>
    by_cases hs : S ∈ seen <;> simp [fpmAttemptsFor, hs]
  | cons e evs ih =>
    by_cases he : e.sender = S
    · by_cases hs : S ∈ seen
      · have hes : e.sender ∈ seen := by rw [he]; exact hs
        simp [fpmAttemptsFor, fpmOnPrivMsg, h, hes, he, hs, List.filter_cons, ih,
          List.replicate_succ]
      · have hes : e.sender ∉ seen := by rw [he]; exact hs
        simp [fpmAttemptsFor, fpmOnPrivMsg, h, hes, he, hs, List.filter_cons, ih,
          List.mem_cons]
    · have hne : (e.sender == S) = false := beq_eq_false_iff_ne.mpr he
      have hsne : S ≠ e.sender := fun hh => he hh.symm
      by_cases hes : e.sender ∈ seen
      · simp [fpmAttemptsFor, fpmOnPrivMsg, h, hes, he, List.filter_cons, ih, hne]
      · simp [fpmAttemptsFor, fpmOnPrivMsg, h, hes, he, List.filter_cons, ih, hne,
          List.mem_cons, hsne]

/-- C1: starting from the empty seen set, for every sender S and every
sequence of private-message events with arbitrary per-event HTTP outcomes
(the bot token and chat id being configured), the S-events trigger exactly
one notification attempt at the first S-event and zero at every later one;
the sender is inserted into the seen set before the HTTP call, so a failed
or raising call (which is caught) changes nothing. -/
theorem fpm_first_pm_exactly_once (c : FPMConfig) (h : fpmCheckArgs c = true)
    (network_name S : String) (evs : List FPMEvent) :
    fpmAttemptsFor c network_name S fpmInitialSeen evs =
      match (evs.filter (fun e => e.sender == S)).length with
      | 0 => []
      | Nat.succ n => 1 :: List.replicate n 0 := by
  rw [fpmAttemptsFor_general c h network_name S evs fpmInitialSeen]
  simp [fpmInitialSeen]

/-- Witness for C1: a concrete run in which the first private message from
alice has a failing HTTP call and the second is suppressed anyway. -/
theorem fpm_first_pm_exactly_once_witness :
    fpmAttemptsFor ⟨some "t", some "c", none⟩ "net" "alice" fpmInitialSeen
      [⟨"alice", "hi", some "boom"⟩, ⟨"bob", "yo", none⟩, ⟨"alice", "again", none⟩] =
      [1, 0] := by
  rw [fpm_first_pm_exactly_once ⟨some "t", some "c", none⟩ (by decide) "net" "alice"
    [⟨"alice", "hi", some "boom"⟩, ⟨"bob", "yo", none⟩, ⟨"alice", "again", none⟩]]
  rfl

/-- C5: with no API key stored, get_weather emits the target-facing not
set up reply exactly when a target was given, always reports the missing
key on the console (a message containing the words API key is not set),
issues no HTTP request, and leaves the persisted store unchanged. -/
theorem weather_no_apikey (world : String → HttpResult) (st : NVStore)
    (location : String) (target : Option String) (h : getNV st "apikey" = "") :
    get_weather world st location target =
      ((match target with
        | some t => [Out.chat t "!weather is not set up." true]
        | none => []) ++ [Out.console apiKeyMissingMsg], st) ∧
    (∀ u, Out.httpGet u ∉ (get_weather world st location target).1) ∧
    pyInB "API key is not set" apiKeyMissingMsg = true := by
  have hq0 : pyQuote "" = "" := rfl
  have heq : get_weather world st location target =
      ((match target with
        | some t => [Out.chat t "!weather is not set up." true]
        | none => []) ++ [Out.console apiKeyMissingMsg], st) := by
    unfold get_weather
    simp only [h, hq0]
    cases target <;> simp [wAction, wPut]
  refine ⟨heq, ?_, by decide⟩
  intro u
  rw [heq]
  cases target <;> simp

/-- Witness for C5: a concrete empty store with a chat target. -/
theorem weather_no_apikey_witness :
    get_weather (fun _ => HttpResult.otherError "unreachable") [] "Berlin" (some "#chan") =
      ([Out.chat "#chan" "!weather is not set up." true, Out.console apiKeyMissingMsg],
        []) :=
  (weather_no_apikey (fun _ => HttpResult.otherError "unreachable") [] "Berlin"
    (some "#chan") rfl).1

/-- C6: with an API key stored, the reply for each failure of the lookup
is fixed by the failure kind: HTTP 404 gives the literal Location not
found. (delivered as an action), InvalidURL gives Invalid Location., and
any other error, including a non-404 HTTP error, gives Could not fetch
weather data; every one of these outcomes is a caught exception inside
get_weather, whose result is a total value, so nothing propagates to the
handler boundary. -/
theorem weather_fetch_error_replies (world : String → HttpResult) (st : NVStore)
    (location t : String) (h : getNV st "apikey" ≠ "") :
    (world (weatherUrl (pyQuote location) (pyQuote (getNV st "apikey"))) =
        .httpError 404 →
      (get_weather world st location (some t)).1 =
        [Out.httpGet (weatherUrl (pyQuote location) (pyQuote (getNV st "apikey"))),
          Out.chat t "Location not found." true]) ∧
    (world (weatherUrl (pyQuote location) (pyQuote (getNV st "apikey"))) = .invalidURL →
      (get_weather world st location (some t)).1 =
        [Out.httpGet (weatherUrl (pyQuote location) (pyQuote (getNV st "apikey"))),
          Out.chat t "Invalid Location." false]) ∧
    (∀ e, world (weatherUrl (pyQuote location) (pyQuote (getNV st "apikey"))) =
        .otherError e →
      (get_weather world st location (some t)).1 =
        [Out.httpGet (weatherUrl (pyQuote location) (pyQuote (getNV st "apikey"))),
          Out.chat t "Could not fetch weather data" false]) ∧
    (∀ code, code ≠ 404 →
      world (weatherUrl (pyQuote location) (pyQuote (getNV st "apikey"))) =
        .httpError code →
      (get_weather world st location (some t)).1 =
        [Out.httpGet (weatherUrl (pyQuote location) (pyQuote (getNV st "apikey"))),
          Out.chat t "Could not fetch weather data" false]) := by
  have hq : (pyQuote (getNV st "apikey") == "") = false := by
    simpa using pyQuote_ne_empty h
  refine ⟨?_, ?_, ?_, ?_⟩
  · intro hw
    unfold get_weather
    simp [hq, hw, wAction, wPut, wLog, DEBUG]
  · intro hw
    unfold get_weather
    simp [hq, hw, wAction, wPut, wLog, DEBUG]
  · intro e hw
    unfold get_weather
    simp [hq, hw, wAction, wPut, wLog, DEBUG]
  · intro code hcode hw
    have hc : (code == 404) = false := by simpa using hcode
    unfold get_weather
    simp [hq, hw, hc, wAction, wPut, wLog, DEBUG]

/-- Witness for C6: a store holding key K and a world answering 404. -/
theorem weather_fetch_error_replies_witness :
    (get_weather (fun _ => HttpResult.httpError 404) [("apikey", "K")] "Paris"
      (some "#chan")).1 =
      [Out.httpGet (weatherUrl (pyQuote "Paris") (pyQuote (getNV [("apikey", "K")] "apikey"))),
        Out.chat "#chan" "Location not found." true] :=
  (weather_fetch_error_replies (fun _ => HttpResult.httpError 404) [("apikey", "K")]
    "Paris" "#chan" (by decide)).1 rfl

/-- C7: setkey with no argument deletes the stored key when one exists,
reporting the removal, and otherwise leaves the store unchanged reporting
usage; setkey with argument K persists K, after which the stored key read
by a weather lookup is K and the first output of the lookup is the HTTP
GET for the quoted K. -/
theorem weather_setkey (line : String) (st : NVStore) :
    (setkeyArg line = none → hasNV st "apikey" = true →
      setkeyCmd line st = (delNV st "apikey", [Out.console "API key removed."])) ∧
    (setkeyArg line = none → hasNV st "apikey" = false →
      setkeyCmd line st = (st, [Out.console "Usage: setkey <APIKEY>"])) ∧
    (∀ K, setkeyArg line = some K →
      setkeyCmd line st =
        (setNV st "apikey" K, [Out.console "API key set successfully."]) ∧
      getNV (setkeyCmd line st).1 "apikey" = K ∧
      (∀ world location target,
        ((get_weather world (setkeyCmd line st).1 location target).1).head? =
          some (Out.httpGet (weatherUrl (pyQuote location) (pyQuote K))))) := by
  refine ⟨?_, ?_, ?_⟩
  · intro h1 h2
    simp [setkeyCmd, h1, h2]
  · intro h1 h2
    simp [setkeyCmd, h1, h2]
  · intro K hK
    have hKne : K ≠ "" := by
      unfold setkeyArg at hK
      have hKp := List.find?_some hK
      simpa using hKp
    have hset : setkeyCmd line st =
        (setNV st "apikey" K, [Out.console "API key set successfully."]) := by
      simp [setkeyCmd, hK]
    have hget : getNV (setNV st "apikey" K) "apikey" = K := by
      simp [getNV, setNV, List.find?_cons]
    refine ⟨hset, by rw [hset]; exact hget, ?_⟩
    intro world location target
    rw [hset]
    unfold get_weather
    simp [hget, wLog, DEBUG, pyQuote_ne_empty hKne]

/-- Witness for C7: setting a concrete key and looking it up. -/
theorem weather_setkey_witness :
    getNV (setkeyCmd "setkey ABC123" []).1 "apikey" = "ABC123" ∧
    ((get_weather (fun _ => HttpResult.invalidURL) (setkeyCmd "setkey ABC123" []).1
      "Berlin" none).1).head? =
      some (Out.httpGet (weatherUrl (pyQuote "Berlin") (pyQuote "ABC123"))) :=
  ⟨((weather_setkey "setkey ABC123" []).2.2 "ABC123" rfl).2.1,
    ((weather_setkey "setkey ABC123" []).2.2 "ABC123" rfl).2.2
      (fun _ => HttpResult.invalidURL) "Berlin" none⟩

/-- C9: whenever the mentions value of the parsed (lower-cased) argument
dict is unset or splits into only empty comma-separated items, OnLoad sets
the effective mention list to exactly the one-element list holding the own
nick of the bouncer account. -/
theorem mentions_default_own_nick (ownNick args : String) (d : List (String × String))
    (h1 : parseArgs (pyLower args) = .ok d)
    (h2 : (pySplitChar ((dictGet d "mentions").getD "") ',').all (fun m => m == "") =
      true) :
    ∃ c b outs, mentionsOnLoad ownNick args = .ok (c, b, outs) ∧
      c.mentions = [ownNick] := by
  have hfilter : (pySplitChar ((dictGet d "mentions").getD "") ',').filter
      (fun m => !(m == "")) = [] := by
    rw [List.filter_eq_nil]
    intro a ha
    have := List.all_eq_true.mp h2 a ha
    simpa using this
  unfold mentionsOnLoad
  simp only [CASE_SENSITIVE, Bool.not_false, if_true]
  rw [h1]
  simp only [hfilter, List.isEmpty_nil, if_true]
  split
  · exact ⟨_, _, _, rfl, rfl⟩
  · exact ⟨_, _, _, rfl, rfl⟩

/-- Witness for C9: a load argument with no mentions key defaults the
mention list to the own nick. -/
theorem mentions_default_own_nick_witness :
    ∃ c b outs, mentionsOnLoad "nick" "bot_token=t;chat_id=c" = .ok (c, b, outs) ∧
      c.mentions = ["nick"] :=
  mentions_default_own_nick "nick" "bot_token=t;chat_id=c"
    [("bot_token", "t"), ("chat_id", "c")] rfl rfl

end ZncModules
